import Mathlib

/-!
The fccntl wrapper of pyouroboros, `src/ffi/fccntl_wrap.h`.

The file holds nine C functions, each a single call of the variadic control
primitive `fccntl(fd, cmd, ...)` of the Ouroboros library.  The primitive is
an external collaborator: every wrapper below takes it as a parameter
`fccntl`, together with the state `w` of everything the primitive can see or
change.

A pointer argument is represented by the slot it refers to: `none` is the
null pointer, `some v` a pointer to a slot that holds `v`.  A call of the
primitive yields the integer it returns, the state it leaves, and the
content of the argument slot after the call (what the callee wrote through
the pointer, or the untouched content).
-/

namespace FccntlWrap

/-! Data model. -/

/-- The `struct timespec` of `<time.h>`: seconds and nanoseconds. -/
structure timespec where
  tv_sec : Int
  tv_nsec : Int
  deriving DecidableEq, Repr

/-- Modelled from the spec: the `qosspec_t` of `<ouroboros/qos.h>`, whose
declaration is not part of the wrapper; the wrapper only passes a pointer to
it.  The spec calls it an opaque bag of scheduling and priority attributes. -/
structure qosspec_t where
  attrs : List Nat
  deriving DecidableEq, Repr

/-- Modelled from the spec: the command tags of `<ouroboros/fccntl.h>`, used by
name in the wrapper; their numeric values are not part of the wrapper.  The
spec describes a closed enumeration, one tag per parameter and direction. -/
inductive Cmd where
  | FLOWSSNDTIMEO
  | FLOWSRCVTIMEO
  | FLOWGSNDTIMEO
  | FLOWGRCVTIMEO
  | FLOWGQOSSPEC
  | FLOWGRXQLEN
  | FLOWGTXQLEN
  | FLOWSFLAGS
  | FLOWGFLAGS
  deriving DecidableEq, Repr

/-- The C type of the variadic argument each wrapper passes with a tag:
`struct timespec *`, `qosspec_t *`, `size_t *`, `uint32_t` (by value, for
`FLOWSFLAGS`) and `uint32_t *` (the address of a local, never null, for
`FLOWGFLAGS`). -/
@[reducible] def Cmd.Arg : Cmd → Type
  | .FLOWSSNDTIMEO => Option timespec
  | .FLOWSRCVTIMEO => Option timespec
  | .FLOWGSNDTIMEO => Option timespec
  | .FLOWGRCVTIMEO => Option timespec
  | .FLOWGQOSSPEC => Option qosspec_t
  | .FLOWGRXQLEN => Option Nat
  | .FLOWGTXQLEN => Option Nat
  | .FLOWSFLAGS => Nat
  | .FLOWGFLAGS => Nat

/-- What one call leaves behind: the `int` returned, the state of the
world of the primitive, and the content of the argument slot after the call. -/
structure Ret (σ : Type) (α : Type) where
  ret : Int
  world : σ
  slot : α

/-- The control primitive `int fccntl(int fd, int cmd, ...)`, over a world
state `σ`. -/
abbrev Fccntl (σ : Type) : Type :=
  σ → Int → (cmd : Cmd) → cmd.Arg → Ret σ cmd.Arg

/-- The cast `(int) flags` of a `uint32_t`: the value modulo `2^32`, read as a
32-bit integer in two-complement form (what GCC and Clang define for a value
that does not fit in `int`). -/
def int_of_uint32 (flags : Nat) : Int :=
  if flags % 2 ^ 32 < 2 ^ 31 then ((flags % 2 ^ 32 : Nat) : Int)
  else ((flags % 2 ^ 32 : Nat) : Int) - 2 ^ 32

/-! The nine wrappers. -/

/-- The C function `int flow_set_snd_timeout(int fd, struct timespec * ts)`. -/
def flow_set_snd_timeout {σ : Type} (fccntl : Fccntl σ) (w : σ) (fd : Int)
    (ts : Option timespec) : Ret σ (Option timespec) :=
  fccntl w fd .FLOWSSNDTIMEO ts

/-- The C function `int flow_set_rcv_timeout(int fd, struct timespec * ts)`. -/
def flow_set_rcv_timeout {σ : Type} (fccntl : Fccntl σ) (w : σ) (fd : Int)
    (ts : Option timespec) : Ret σ (Option timespec) :=
  fccntl w fd .FLOWSRCVTIMEO ts

/-- The C function `int flow_get_snd_timeout(int fd, struct timespec * ts)`. -/
def flow_get_snd_timeout {σ : Type} (fccntl : Fccntl σ) (w : σ) (fd : Int)
    (ts : Option timespec) : Ret σ (Option timespec) :=
  fccntl w fd .FLOWGSNDTIMEO ts

/-- The C function `int flow_get_rcv_timeout(int fd, struct timespec * ts)`. -/
def flow_get_rcv_timeout {σ : Type} (fccntl : Fccntl σ) (w : σ) (fd : Int)
    (ts : Option timespec) : Ret σ (Option timespec) :=
  fccntl w fd .FLOWGRCVTIMEO ts

/-- The C function `int flow_get_qos(int fd, qosspec_t * qs)`. -/
def flow_get_qos {σ : Type} (fccntl : Fccntl σ) (w : σ) (fd : Int)
    (qs : Option qosspec_t) : Ret σ (Option qosspec_t) :=
  fccntl w fd .FLOWGQOSSPEC qs

/-- The C function `int flow_get_rx_qlen(int fd, size_t * sz)`. -/
def flow_get_rx_qlen {σ : Type} (fccntl : Fccntl σ) (w : σ) (fd : Int)
    (sz : Option Nat) : Ret σ (Option Nat) :=
  fccntl w fd .FLOWGRXQLEN sz

/-- The C function `int flow_get_tx_qlen(int fd, size_t * sz)`. -/
def flow_get_tx_qlen {σ : Type} (fccntl : Fccntl σ) (w : σ) (fd : Int)
    (sz : Option Nat) : Ret σ (Option Nat) :=
  fccntl w fd .FLOWGTXQLEN sz

/-- The C function `int flow_set_flags(int fd, uint32_t flags)`: the bitmask
goes by value; the slot of the result is the copy held by the callee, which
the caller never sees. -/
def flow_set_flags {σ : Type} (fccntl : Fccntl σ) (w : σ) (fd : Int)
    (flags : Nat) : Ret σ Nat :=
  fccntl w fd .FLOWSFLAGS flags

/-- The C function `int flow_get_flags(int fd)`.  The local `uint32_t flags`
is not initialised: `flags` is whatever the stack holds when the function is
entered.  `EPERM` is the constant of `<errno.h>`.  The slot of the result is
the local after the call, dead once the function returns. -/
def flow_get_flags {σ : Type} (EPERM : Int) (fccntl : Fccntl σ) (w : σ)
    (flags : Nat) (fd : Int) : Ret σ Nat :=
  let r := fccntl w fd .FLOWGFLAGS flags
  if r.ret ≠ 0 then
    { ret := -EPERM, world := r.world, slot := r.slot }
  else
    { ret := int_of_uint32 r.slot, world := r.world, slot := r.slot }

/-! Test doubles for the primitive. -/

/-- A primitive that counts its invocations: it behaves as `fccntl` and adds
one to a counter kept next to the state of `fccntl`. -/
def counting {σ : Type} (fccntl : Fccntl σ) : Fccntl (σ × Nat) :=
  fun w fd cmd arg =>
    let r := fccntl w.1 fd cmd arg
    { ret := r.ret, world := (r.world, w.2 + 1), slot := r.slot }

/-- One invocation as the primitive sees it: descriptor, tag, argument. -/
structure Call where
  fd : Int
  cmd : Cmd
  arg : cmd.Arg

/-- A primitive that records its invocations: it behaves as `fccntl` and
appends what it was called with to a log kept next to the state of `fccntl`. -/
def recording {σ : Type} (fccntl : Fccntl σ) : Fccntl (σ × List Call) :=
  fun w fd cmd arg =>
    let r := fccntl w.1 fd cmd arg
    { ret := r.ret, world := (r.world, w.2 ++ [{ fd := fd, cmd := cmd, arg := arg }]),
      slot := r.slot }

/-- Modelled from the spec: the parameters the primitive keeps for one open
flow (the flow table of the Ouroboros library is outside the wrapper): the two
timeouts, unset or a duration, the QoS descriptor, the two queue lengths and
the flags bitmask. -/
structure Flow where
  snd_timeo : Option timespec
  rcv_timeo : Option timespec
  qs : qosspec_t
  rx_qlen : Nat
  tx_qlen : Nat
  flags : Nat

/-- The open flows, by descriptor; `none` for a descriptor that is not open. -/
abbrev Flows : Type := Int → Option Flow

/-- Replace the parameters of the flow `fd`. -/
def Flows.put (t : Flows) (fd : Int) (f : Flow) : Flows :=
  fun k => if k = fd then some f else t k

/-- Modelled from the spec: the control primitive `fccntl` of the Ouroboros
library, which the wrapper calls and does not define.  A set command stores
its argument in the flow and returns 0; a get command writes the stored value
through the reference and returns 0.  A call fails, writing and changing
nothing, on a descriptor that is not open (`-EBADF`, -9), on a null reference
(`-EINVAL`, -22) and on a get of a timeout that is unset (`-EPERM`, -1, the
scenario of the spec). -/
def fccntl_model : Fccntl Flows :=
  fun t fd cmd arg =>
    match t fd with
    | none => { ret := -9, world := t, slot := arg }
    | some f =>
      match cmd, arg with
      | .FLOWSSNDTIMEO, none => { ret := -22, world := t, slot := none }
      | .FLOWSSNDTIMEO, some v =>
        { ret := 0, world := t.put fd { f with snd_timeo := some v }, slot := some v }
      | .FLOWSRCVTIMEO, none => { ret := -22, world := t, slot := none }
      | .FLOWSRCVTIMEO, some v =>
        { ret := 0, world := t.put fd { f with rcv_timeo := some v }, slot := some v }
      | .FLOWGSNDTIMEO, none => { ret := -22, world := t, slot := none }
      | .FLOWGSNDTIMEO, some old =>
        match f.snd_timeo with
        | none => { ret := -1, world := t, slot := some old }
        | some v => { ret := 0, world := t, slot := some v }
      | .FLOWGRCVTIMEO, none => { ret := -22, world := t, slot := none }
      | .FLOWGRCVTIMEO, some old =>
        match f.rcv_timeo with
        | none => { ret := -1, world := t, slot := some old }
        | some v => { ret := 0, world := t, slot := some v }
      | .FLOWGQOSSPEC, none => { ret := -22, world := t, slot := none }
      | .FLOWGQOSSPEC, some _ => { ret := 0, world := t, slot := some f.qs }
      | .FLOWGRXQLEN, none => { ret := -22, world := t, slot := none }
      | .FLOWGRXQLEN, some _ => { ret := 0, world := t, slot := some f.rx_qlen }
      | .FLOWGTXQLEN, none => { ret := -22, world := t, slot := none }
      | .FLOWGTXQLEN, some _ => { ret := 0, world := t, slot := some f.tx_qlen }
      | .FLOWSFLAGS, m =>
        { ret := 0, world := t.put fd { f with flags := m % 2 ^ 32 }, slot := m }
      | .FLOWGFLAGS, _ => { ret := 0, world := t, slot := f.flags }

/-- A flow table with one open flow, descriptor 3, both timeouts unset and
flags 2; every other descriptor is closed. -/
def one_flow : Flows :=
  fun k =>
    if k = 3 then
      some { snd_timeo := none, rcv_timeo := none, qs := { attrs := [] },
             rx_qlen := 0, tx_qlen := 0, flags := 2 }
    else none

/-- A flow table with one open flow, descriptor 3, whose flags hold all 32
bits. -/
def all_bits_flow : Flows :=
  fun k =>
    if k = 3 then
      some { snd_timeo := none, rcv_timeo := none, qs := { attrs := [] },
             rx_qlen := 0, tx_qlen := 0, flags := 4294967295 }
    else none

/-- The duration 2.5 s. -/
def two_and_a_half : timespec := { tv_sec := 2, tv_nsec := 500000000 }

/-! Theorems. -/

/-- On both paths `flow_get_flags` leaves the world the primitive left. -/
theorem flow_get_flags_world {σ : Type} (EPERM : Int) (fccntl : Fccntl σ) (w : σ)
    (flags : Nat) (fd : Int) :
    (flow_get_flags EPERM fccntl w flags fd).world = (fccntl w fd .FLOWGFLAGS flags).world := by
  by_cases h : (fccntl w fd .FLOWGFLAGS flags).ret = 0 <;> simp [flow_get_flags, h]

/-- C1: for every primitive, state, descriptor and argument, each of the eight
pass-through wrappers returns exactly the integer the primitive returned for
that call, zero or not. -/
theorem passthrough_returns_primitive_result {σ : Type} (fccntl : Fccntl σ) (w : σ)
    (fd : Int) (ts : Option timespec) (qs : Option qosspec_t) (sz : Option Nat)
    (flags : Nat) :
    (flow_set_snd_timeout fccntl w fd ts).ret = (fccntl w fd .FLOWSSNDTIMEO ts).ret ∧
    (flow_set_rcv_timeout fccntl w fd ts).ret = (fccntl w fd .FLOWSRCVTIMEO ts).ret ∧
    (flow_get_snd_timeout fccntl w fd ts).ret = (fccntl w fd .FLOWGSNDTIMEO ts).ret ∧
    (flow_get_rcv_timeout fccntl w fd ts).ret = (fccntl w fd .FLOWGRCVTIMEO ts).ret ∧
    (flow_get_qos fccntl w fd qs).ret = (fccntl w fd .FLOWGQOSSPEC qs).ret ∧
    (flow_get_rx_qlen fccntl w fd sz).ret = (fccntl w fd .FLOWGRXQLEN sz).ret ∧
    (flow_get_tx_qlen fccntl w fd sz).ret = (fccntl w fd .FLOWGTXQLEN sz).ret ∧
    (flow_set_flags fccntl w fd flags).ret = (fccntl w fd .FLOWSFLAGS flags).ret :=
  ⟨rfl, rfl, rfl, rfl, rfl, rfl, rfl, rfl⟩

/-- C2: whenever the primitive returns a non-zero value on the flags-get
command, whatever that value is, `flow_get_flags` returns `-EPERM`. -/
theorem flow_get_flags_failure_is_sentinel {σ : Type} (EPERM : Int) (fccntl : Fccntl σ)
    (w : σ) (flags : Nat) (fd : Int)
    (hfail : (fccntl w fd .FLOWGFLAGS flags).ret ≠ 0) :
    (flow_get_flags EPERM fccntl w flags fd).ret = -EPERM := by
  simp [flow_get_flags, hfail]

/-- Witness of C2: descriptor 4 is closed, the model primitive fails with -9 and
`flow_get_flags` returns -1. -/
theorem flow_get_flags_failure_is_sentinel_witness :
    (fccntl_model one_flow 4 .FLOWGFLAGS 77).ret = -9 ∧
    (flow_get_flags 1 fccntl_model one_flow 77 4).ret = -1 :=
  ⟨by decide, flow_get_flags_failure_is_sentinel 1 fccntl_model one_flow 77 4 (by decide)⟩

/-- C6: over a primitive that counts its invocations, each of the nine
wrappers raises the count by exactly one, whether the primitive succeeds or
fails. -/
theorem each_wrapper_calls_primitive_once {σ : Type} (EPERM : Int) (fccntl : Fccntl σ)
    (w : σ) (n : Nat) (fd : Int) (ts : Option timespec) (qs : Option qosspec_t)
    (sz : Option Nat) (flags : Nat) :
    (flow_set_snd_timeout (counting fccntl) (w, n) fd ts).world.2 = n + 1 ∧
    (flow_set_rcv_timeout (counting fccntl) (w, n) fd ts).world.2 = n + 1 ∧
    (flow_get_snd_timeout (counting fccntl) (w, n) fd ts).world.2 = n + 1 ∧
    (flow_get_rcv_timeout (counting fccntl) (w, n) fd ts).world.2 = n + 1 ∧
    (flow_get_qos (counting fccntl) (w, n) fd qs).world.2 = n + 1 ∧
    (flow_get_rx_qlen (counting fccntl) (w, n) fd sz).world.2 = n + 1 ∧
    (flow_get_tx_qlen (counting fccntl) (w, n) fd sz).world.2 = n + 1 ∧
    (flow_set_flags (counting fccntl) (w, n) fd flags).world.2 = n + 1 ∧
    (flow_get_flags EPERM (counting fccntl) (w, n) flags fd).world.2 = n + 1 := by
  refine ⟨rfl, rfl, rfl, rfl, rfl, rfl, rfl, rfl, ?_⟩
  rw [flow_get_flags_world]
  rfl

/-- C7: over a primitive that records its invocations, each wrapper adds one
entry to the log: the descriptor of the caller, the tag of its own command and
the argument of the caller (for `flow_get_flags`, the local flags slot); the
nine tags are pairwise different. -/
theorem each_wrapper_sends_its_own_tag {σ : Type} (EPERM : Int) (fccntl : Fccntl σ)
    (w : σ) (l : List Call) (fd : Int) (ts : Option timespec) (qs : Option qosspec_t)
    (sz : Option Nat) (flags : Nat) :
    (flow_set_snd_timeout (recording fccntl) (w, l) fd ts).world.2
      = l ++ [{ fd := fd, cmd := .FLOWSSNDTIMEO, arg := ts }] ∧
    (flow_set_rcv_timeout (recording fccntl) (w, l) fd ts).world.2
      = l ++ [{ fd := fd, cmd := .FLOWSRCVTIMEO, arg := ts }] ∧
    (flow_get_snd_timeout (recording fccntl) (w, l) fd ts).world.2
      = l ++ [{ fd := fd, cmd := .FLOWGSNDTIMEO, arg := ts }] ∧
    (flow_get_rcv_timeout (recording fccntl) (w, l) fd ts).world.2
      = l ++ [{ fd := fd, cmd := .FLOWGRCVTIMEO, arg := ts }] ∧
    (flow_get_qos (recording fccntl) (w, l) fd qs).world.2
      = l ++ [{ fd := fd, cmd := .FLOWGQOSSPEC, arg := qs }] ∧
    (flow_get_rx_qlen (recording fccntl) (w, l) fd sz).world.2
      = l ++ [{ fd := fd, cmd := .FLOWGRXQLEN, arg := sz }] ∧
    (flow_get_tx_qlen (recording fccntl) (w, l) fd sz).world.2
      = l ++ [{ fd := fd, cmd := .FLOWGTXQLEN, arg := sz }] ∧
    (flow_set_flags (recording fccntl) (w, l) fd flags).world.2
      = l ++ [{ fd := fd, cmd := .FLOWSFLAGS, arg := flags }] ∧
    (flow_get_flags EPERM (recording fccntl) (w, l) flags fd).world.2
      = l ++ [{ fd := fd, cmd := .FLOWGFLAGS, arg := flags }] ∧
    [Cmd.FLOWSSNDTIMEO, .FLOWSRCVTIMEO, .FLOWGSNDTIMEO, .FLOWGRCVTIMEO, .FLOWGQOSSPEC,
      .FLOWGRXQLEN, .FLOWGTXQLEN, .FLOWSFLAGS, .FLOWGFLAGS].Nodup := by
  refine ⟨rfl, rfl, rfl, rfl, rfl, rfl, rfl, rfl, ?_, by decide⟩
  rw [flow_get_flags_world]
  rfl

/-- C8: for each of the five get wrappers with an out-slot, when the primitive
returns a non-zero value and leaves the slot as it was, the wrapper returns that
non-zero value and the slot of the caller holds what it held before the call. -/
theorem get_failure_leaves_slot {σ : Type} (fccntl : Fccntl σ) (w : σ) (fd : Int)
    (ts : Option timespec) (qs : Option qosspec_t) (sz : Option Nat) :
    ((fccntl w fd .FLOWGSNDTIMEO ts).ret ≠ 0 → (fccntl w fd .FLOWGSNDTIMEO ts).slot = ts →
      (flow_get_snd_timeout fccntl w fd ts).ret ≠ 0 ∧
      (flow_get_snd_timeout fccntl w fd ts).slot = ts) ∧
    ((fccntl w fd .FLOWGRCVTIMEO ts).ret ≠ 0 → (fccntl w fd .FLOWGRCVTIMEO ts).slot = ts →
      (flow_get_rcv_timeout fccntl w fd ts).ret ≠ 0 ∧
      (flow_get_rcv_timeout fccntl w fd ts).slot = ts) ∧
    ((fccntl w fd .FLOWGQOSSPEC qs).ret ≠ 0 → (fccntl w fd .FLOWGQOSSPEC qs).slot = qs →
      (flow_get_qos fccntl w fd qs).ret ≠ 0 ∧
      (flow_get_qos fccntl w fd qs).slot = qs) ∧
    ((fccntl w fd .FLOWGRXQLEN sz).ret ≠ 0 → (fccntl w fd .FLOWGRXQLEN sz).slot = sz →
      (flow_get_rx_qlen fccntl w fd sz).ret ≠ 0 ∧
      (flow_get_rx_qlen fccntl w fd sz).slot = sz) ∧
    ((fccntl w fd .FLOWGTXQLEN sz).ret ≠ 0 → (fccntl w fd .FLOWGTXQLEN sz).slot = sz →
      (flow_get_tx_qlen fccntl w fd sz).ret ≠ 0 ∧
      (flow_get_tx_qlen fccntl w fd sz).slot = sz) :=
  ⟨fun h1 h2 => ⟨h1, h2⟩, fun h1 h2 => ⟨h1, h2⟩, fun h1 h2 => ⟨h1, h2⟩,
   fun h1 h2 => ⟨h1, h2⟩, fun h1 h2 => ⟨h1, h2⟩⟩

/-- Witness of C8: on the model primitive the send and receive timeouts of
descriptor 3 are unset and descriptor 4 is closed; every get fails and the
slots keep their content. -/
theorem get_failure_leaves_slot_witness :
    ((flow_get_snd_timeout fccntl_model one_flow 3 (some two_and_a_half)).ret ≠ 0 ∧
      (flow_get_snd_timeout fccntl_model one_flow 3 (some two_and_a_half)).slot
        = some two_and_a_half) ∧
    ((flow_get_rcv_timeout fccntl_model one_flow 3 (some two_and_a_half)).ret ≠ 0 ∧
      (flow_get_rcv_timeout fccntl_model one_flow 3 (some two_and_a_half)).slot
        = some two_and_a_half) ∧
    ((flow_get_qos fccntl_model one_flow 4 (some { attrs := [1] })).ret ≠ 0 ∧
      (flow_get_qos fccntl_model one_flow 4 (some { attrs := [1] })).slot
        = some { attrs := [1] }) ∧
    ((flow_get_rx_qlen fccntl_model one_flow 4 (some 5)).ret ≠ 0 ∧
      (flow_get_rx_qlen fccntl_model one_flow 4 (some 5)).slot = some 5) ∧
    ((flow_get_tx_qlen fccntl_model one_flow 4 (some 5)).ret ≠ 0 ∧
      (flow_get_tx_qlen fccntl_model one_flow 4 (some 5)).slot = some 5) :=
  ⟨(get_failure_leaves_slot fccntl_model one_flow 3 (some two_and_a_half)
      (some { attrs := [1] }) (some 5)).1 (by decide) (by decide),
   (get_failure_leaves_slot fccntl_model one_flow 3 (some two_and_a_half)
      (some { attrs := [1] }) (some 5)).2.1 (by decide) (by decide),
   (get_failure_leaves_slot fccntl_model one_flow 4 (some two_and_a_half)
      (some { attrs := [1] }) (some 5)).2.2.1 (by decide) (by decide),
   (get_failure_leaves_slot fccntl_model one_flow 4 (some two_and_a_half)
      (some { attrs := [1] }) (some 5)).2.2.2.1 (by decide) (by decide),
   (get_failure_leaves_slot fccntl_model one_flow 4 (some two_and_a_half)
      (some { attrs := [1] }) (some 5)).2.2.2.2 (by decide) (by decide)⟩

/-- Counterexample to C9 as stated: descriptor 4 is closed, the model primitive
fails with -9 on the flags-get command, and `flow_get_flags` (with `EPERM` 1)
returns -1, not the failure code of the primitive. -/
theorem flow_get_flags_drops_failure_code :
    (fccntl_model one_flow 4 .FLOWGFLAGS 77).ret = -9 ∧
    (flow_get_flags 1 fccntl_model one_flow 77 4).ret = -1 ∧
    (flow_get_flags 1 fccntl_model one_flow 77 4).ret
      ≠ (fccntl_model one_flow 4 .FLOWGFLAGS 77).ret := by
  decide

/-- C9, amended: when the primitive returns a non-zero value, each of the eight
pass-through wrappers returns that value, which is not zero; `flow_get_flags`
returns `-EPERM`, a negative value for a positive `EPERM`, whatever the value
of the primitive. -/
theorem failure_stays_failure {σ : Type} (EPERM : Int) (fccntl : Fccntl σ) (w : σ)
    (fd : Int) (ts : Option timespec) (qs : Option qosspec_t) (sz : Option Nat)
    (flags : Nat) (hE : 0 < EPERM) :
    ((fccntl w fd .FLOWSSNDTIMEO ts).ret ≠ 0 →
      (flow_set_snd_timeout fccntl w fd ts).ret = (fccntl w fd .FLOWSSNDTIMEO ts).ret ∧
      (flow_set_snd_timeout fccntl w fd ts).ret ≠ 0) ∧
    ((fccntl w fd .FLOWSRCVTIMEO ts).ret ≠ 0 →
      (flow_set_rcv_timeout fccntl w fd ts).ret = (fccntl w fd .FLOWSRCVTIMEO ts).ret ∧
      (flow_set_rcv_timeout fccntl w fd ts).ret ≠ 0) ∧
    ((fccntl w fd .FLOWGSNDTIMEO ts).ret ≠ 0 →
      (flow_get_snd_timeout fccntl w fd ts).ret = (fccntl w fd .FLOWGSNDTIMEO ts).ret ∧
      (flow_get_snd_timeout fccntl w fd ts).ret ≠ 0) ∧
    ((fccntl w fd .FLOWGRCVTIMEO ts).ret ≠ 0 →
      (flow_get_rcv_timeout fccntl w fd ts).ret = (fccntl w fd .FLOWGRCVTIMEO ts).ret ∧
      (flow_get_rcv_timeout fccntl w fd ts).ret ≠ 0) ∧
    ((fccntl w fd .FLOWGQOSSPEC qs).ret ≠ 0 →
      (flow_get_qos fccntl w fd qs).ret = (fccntl w fd .FLOWGQOSSPEC qs).ret ∧
      (flow_get_qos fccntl w fd qs).ret ≠ 0) ∧
    ((fccntl w fd .FLOWGRXQLEN sz).ret ≠ 0 →
      (flow_get_rx_qlen fccntl w fd sz).ret = (fccntl w fd .FLOWGRXQLEN sz).ret ∧
      (flow_get_rx_qlen fccntl w fd sz).ret ≠ 0) ∧
    ((fccntl w fd .FLOWGTXQLEN sz).ret ≠ 0 →
      (flow_get_tx_qlen fccntl w fd sz).ret = (fccntl w fd .FLOWGTXQLEN sz).ret ∧
      (flow_get_tx_qlen fccntl w fd sz).ret ≠ 0) ∧
    ((fccntl w fd .FLOWSFLAGS flags).ret ≠ 0 →
      (flow_set_flags fccntl w fd flags).ret = (fccntl w fd .FLOWSFLAGS flags).ret ∧
      (flow_set_flags fccntl w fd flags).ret ≠ 0) ∧
    ((fccntl w fd .FLOWGFLAGS flags).ret ≠ 0 →
      (flow_get_flags EPERM fccntl w flags fd).ret = -EPERM ∧
      (flow_get_flags EPERM fccntl w flags fd).ret < 0) := by
  refine ⟨fun h => ⟨rfl, h⟩, fun h => ⟨rfl, h⟩, fun h => ⟨rfl, h⟩, fun h => ⟨rfl, h⟩,
    fun h => ⟨rfl, h⟩, fun h => ⟨rfl, h⟩, fun h => ⟨rfl, h⟩, fun h => ⟨rfl, h⟩, fun h => ?_⟩
  have hret : (flow_get_flags EPERM fccntl w flags fd).ret = -EPERM := by
    simp [flow_get_flags, h]
  exact ⟨hret, by rw [hret]; omega⟩

/-- Witness of C9, amended: descriptor 4 is closed, the model primitive fails
with -9 on every command; the eight pass-through wrappers return that value
and `flow_get_flags` (with `EPERM` 1) returns -1. -/
theorem failure_stays_failure_witness :
    ((flow_set_snd_timeout fccntl_model one_flow 4 (some two_and_a_half)).ret
        = (fccntl_model one_flow 4 .FLOWSSNDTIMEO (some two_and_a_half)).ret ∧
      (flow_set_snd_timeout fccntl_model one_flow 4 (some two_and_a_half)).ret ≠ 0) ∧
    ((flow_set_rcv_timeout fccntl_model one_flow 4 (some two_and_a_half)).ret
        = (fccntl_model one_flow 4 .FLOWSRCVTIMEO (some two_and_a_half)).ret ∧
      (flow_set_rcv_timeout fccntl_model one_flow 4 (some two_and_a_half)).ret ≠ 0) ∧
    ((flow_get_snd_timeout fccntl_model one_flow 4 (some two_and_a_half)).ret
        = (fccntl_model one_flow 4 .FLOWGSNDTIMEO (some two_and_a_half)).ret ∧
      (flow_get_snd_timeout fccntl_model one_flow 4 (some two_and_a_half)).ret ≠ 0) ∧
    ((flow_get_rcv_timeout fccntl_model one_flow 4 (some two_and_a_half)).ret
        = (fccntl_model one_flow 4 .FLOWGRCVTIMEO (some two_and_a_half)).ret ∧
      (flow_get_rcv_timeout fccntl_model one_flow 4 (some two_and_a_half)).ret ≠ 0) ∧
    ((flow_get_qos fccntl_model one_flow 4 (some { attrs := [1] })).ret
        = (fccntl_model one_flow 4 .FLOWGQOSSPEC (some { attrs := [1] })).ret ∧
      (flow_get_qos fccntl_model one_flow 4 (some { attrs := [1] })).ret ≠ 0) ∧
    ((flow_get_rx_qlen fccntl_model one_flow 4 (some 5)).ret
        = (fccntl_model one_flow 4 .FLOWGRXQLEN (some 5)).ret ∧
      (flow_get_rx_qlen fccntl_model one_flow 4 (some 5)).ret ≠ 0) ∧
    ((flow_get_tx_qlen fccntl_model one_flow 4 (some 5)).ret
        = (fccntl_model one_flow 4 .FLOWGTXQLEN (some 5)).ret ∧
      (flow_get_tx_qlen fccntl_model one_flow 4 (some 5)).ret ≠ 0) ∧
    ((flow_set_flags fccntl_model one_flow 4 6).ret
        = (fccntl_model one_flow 4 .FLOWSFLAGS 6).ret ∧
      (flow_set_flags fccntl_model one_flow 4 6).ret ≠ 0) ∧
    ((flow_get_flags 1 fccntl_model one_flow 6 4).ret = -1 ∧
      (flow_get_flags 1 fccntl_model one_flow 6 4).ret < 0) :=
  ⟨(failure_stays_failure 1 fccntl_model one_flow 4 (some two_and_a_half)
      (some { attrs := [1] }) (some 5) 6 (by decide)).1 (by decide),
   (failure_stays_failure 1 fccntl_model one_flow 4 (some two_and_a_half)
      (some { attrs := [1] }) (some 5) 6 (by decide)).2.1 (by decide),
   (failure_stays_failure 1 fccntl_model one_flow 4 (some two_and_a_half)
      (some { attrs := [1] }) (some 5) 6 (by decide)).2.2.1 (by decide),
   (failure_stays_failure 1 fccntl_model one_flow 4 (some two_and_a_half)
      (some { attrs := [1] }) (some 5) 6 (by decide)).2.2.2.1 (by decide),
   (failure_stays_failure 1 fccntl_model one_flow 4 (some two_and_a_half)
      (some { attrs := [1] }) (some 5) 6 (by decide)).2.2.2.2.1 (by decide),
   (failure_stays_failure 1 fccntl_model one_flow 4 (some two_and_a_half)
      (some { attrs := [1] }) (some 5) 6 (by decide)).2.2.2.2.2.1 (by decide),
   (failure_stays_failure 1 fccntl_model one_flow 4 (some two_and_a_half)
      (some { attrs := [1] }) (some 5) 6 (by decide)).2.2.2.2.2.2.1 (by decide),
   (failure_stays_failure 1 fccntl_model one_flow 4 (some two_and_a_half)
      (some { attrs := [1] }) (some 5) 6 (by decide)).2.2.2.2.2.2.2.1 (by decide),
   (failure_stays_failure 1 fccntl_model one_flow 4 (some two_and_a_half)
      (some { attrs := [1] }) (some 5) 6 (by decide)).2.2.2.2.2.2.2.2 (by decide)⟩

/-- The cast of a value below `2^31` is the value itself. -/
theorem int_of_uint32_of_lt (f : Nat) (h : f < 2 ^ 31) : int_of_uint32 f = (f : Int) := by
  unfold int_of_uint32
  have h1 : f % 2 ^ 32 = f := Nat.mod_eq_of_lt (by omega)
  rw [h1, if_pos h]

/-- The cast of a 32-bit value of `2^31` or more is the value minus `2^32`. -/
theorem int_of_uint32_of_ge (f : Nat) (h : 2 ^ 31 ≤ f) (h32 : f < 2 ^ 32) :
    int_of_uint32 f = (f : Int) - 2 ^ 32 := by
  unfold int_of_uint32
  have h1 : f % 2 ^ 32 = f := Nat.mod_eq_of_lt h32
  rw [h1, if_neg (by omega)]

/-- The three facts about the cast of a 32-bit value, together. -/
theorem int_of_uint32_cases (f : Nat) (h32 : f < 2 ^ 32) :
    (f < 2 ^ 31 → 0 ≤ int_of_uint32 f ∧ int_of_uint32 f = (f : Int)) ∧
    (2 ^ 31 ≤ f → int_of_uint32 f < 0 ∧ int_of_uint32 f = (f : Int) - 2 ^ 32) ∧
    int_of_uint32 f % 2 ^ 32 = (f : Int) := by
  refine ⟨fun h => ?_, fun h => ?_, ?_⟩
  · rw [int_of_uint32_of_lt f h]; omega
  · rw [int_of_uint32_of_ge f h h32]; omega
  · by_cases h : f < 2 ^ 31
    · rw [int_of_uint32_of_lt f h]; omega
    · rw [int_of_uint32_of_ge f (by omega) h32]; omega

/-- On success `flow_get_flags` returns the cast of what the primitive wrote. -/
theorem flow_get_flags_ret_of_success {σ : Type} (EPERM : Int) (fccntl : Fccntl σ) (w : σ)
    (flags : Nat) (fd : Int) (hok : (fccntl w fd .FLOWGFLAGS flags).ret = 0) :
    (flow_get_flags EPERM fccntl w flags fd).ret
      = int_of_uint32 (fccntl w fd .FLOWGFLAGS flags).slot := by
  simp [flow_get_flags, hok]

/-- C10: when the primitive succeeds on the flags-get command and writes a
32-bit value `f`, `flow_get_flags` returns `f` read as a signed 32-bit integer:
`f` itself, non-negative, when `f < 2^31`; the negative `f - 2^32` when
`2^31 ≤ f`; in both cases the result modulo `2^32` is `f` again. -/
theorem flow_get_flags_success_value {σ : Type} (EPERM : Int) (fccntl : Fccntl σ) (w : σ)
    (flags : Nat) (fd : Int)
    (hok : (fccntl w fd .FLOWGFLAGS flags).ret = 0)
    (h32 : (fccntl w fd .FLOWGFLAGS flags).slot < 2 ^ 32) :
    ((fccntl w fd .FLOWGFLAGS flags).slot < 2 ^ 31 →
      0 ≤ (flow_get_flags EPERM fccntl w flags fd).ret ∧
      (flow_get_flags EPERM fccntl w flags fd).ret
        = ((fccntl w fd .FLOWGFLAGS flags).slot : Int)) ∧
    (2 ^ 31 ≤ (fccntl w fd .FLOWGFLAGS flags).slot →
      (flow_get_flags EPERM fccntl w flags fd).ret < 0 ∧
      (flow_get_flags EPERM fccntl w flags fd).ret
        = ((fccntl w fd .FLOWGFLAGS flags).slot : Int) - 2 ^ 32) ∧
    (flow_get_flags EPERM fccntl w flags fd).ret % 2 ^ 32
      = ((fccntl w fd .FLOWGFLAGS flags).slot : Int) := by
  rw [flow_get_flags_ret_of_success EPERM fccntl w flags fd hok]
  exact int_of_uint32_cases _ h32

/-- Witness of C10: on the model primitive descriptor 3 holds flags 2 in
`one_flow` and 4294967295 in `all_bits_flow`; the first is returned as 2, the
second as -1, and each result modulo `2^32` is the flags value. -/
theorem flow_get_flags_success_value_witness :
    (flow_get_flags 1 fccntl_model one_flow 77 3).ret = 2 ∧
    (flow_get_flags 1 fccntl_model all_bits_flow 77 3).ret = -1 ∧
    (flow_get_flags 1 fccntl_model one_flow 77 3).ret % 2 ^ 32
      = ((fccntl_model one_flow 3 .FLOWGFLAGS 77).slot : Int) ∧
    (flow_get_flags 1 fccntl_model all_bits_flow 77 3).ret % 2 ^ 32
      = ((fccntl_model all_bits_flow 3 .FLOWGFLAGS 77).slot : Int) :=
  ⟨((flow_get_flags_success_value 1 fccntl_model one_flow 77 3
      (by decide) (by decide)).1 (by decide)).2,
   ((flow_get_flags_success_value 1 fccntl_model all_bits_flow 77 3
      (by decide) (by decide)).2.1 (by decide)).2,
   (flow_get_flags_success_value 1 fccntl_model one_flow 77 3
      (by decide) (by decide)).2.2,
   (flow_get_flags_success_value 1 fccntl_model all_bits_flow 77 3
      (by decide) (by decide)).2.2⟩

/-- Counterexample to C3 as stated: on the model primitive the flags of
descriptor 3 in `all_bits_flow` are 4294967295; the flags-get command succeeds
and writes that value, and `flow_get_flags` (with `EPERM` 1) returns -1, the
sentinel. -/
theorem flags_value_collides_with_sentinel :
    (fccntl_model all_bits_flow 3 .FLOWGFLAGS 77).ret = 0 ∧
    (fccntl_model all_bits_flow 3 .FLOWGFLAGS 77).slot = 4294967295 ∧
    (flow_get_flags 1 fccntl_model all_bits_flow 77 3).ret = -1 := by
  decide

/-- C3, amended: for `0 < EPERM ≤ 2^31` and a 32-bit flags slot,
`flow_get_flags` returns `-EPERM` exactly when the primitive failed or wrote the
one flags value `2^32 - EPERM`; every other flags value written on success
is returned as a value different from `-EPERM`. -/
theorem flow_get_flags_sentinel_iff {σ : Type} (EPERM : Int) (fccntl : Fccntl σ) (w : σ)
    (flags : Nat) (fd : Int) (hE : 0 < EPERM) (hE31 : EPERM ≤ 2 ^ 31)
    (h32 : (fccntl w fd .FLOWGFLAGS flags).slot < 2 ^ 32) :
    (flow_get_flags EPERM fccntl w flags fd).ret = -EPERM ↔
      ((fccntl w fd .FLOWGFLAGS flags).ret ≠ 0 ∨
        ((fccntl w fd .FLOWGFLAGS flags).slot : Int) = 2 ^ 32 - EPERM) := by
  by_cases hok : (fccntl w fd .FLOWGFLAGS flags).ret = 0
  · rw [flow_get_flags_ret_of_success EPERM fccntl w flags fd hok]
    have hc := int_of_uint32_cases _ h32
    constructor
    · intro h
      right
      have h3 := hc.2.2
      rw [h] at h3
      rw [← h3]
      omega
    · rintro (h | h)
      · exact absurd hok h
      · have h2 := (hc.2.1 (by omega)).2
        omega
  · constructor
    · intro _
      exact Or.inl hok
    · intro _
      simp [flow_get_flags, hok]

/-- Witness of C3, amended: on the model primitive descriptor 3 of `one_flow`
holds flags 2; with `EPERM` 1 neither side of the equivalence holds. -/
theorem flow_get_flags_sentinel_iff_witness :
    (flow_get_flags 1 fccntl_model one_flow 77 3).ret = -1 ↔
      ((fccntl_model one_flow 3 .FLOWGFLAGS 77).ret ≠ 0 ∨
        ((fccntl_model one_flow 3 .FLOWGFLAGS 77).slot : Int) = 2 ^ 32 - 1) :=
  flow_get_flags_sentinel_iff 1 fccntl_model one_flow 77 3 (by decide) (by decide) (by decide)

/-- Reading the table at the descriptor just written gives what was written. -/
theorem Flows.put_same (t : Flows) (fd : Int) (f : Flow) : (t.put fd f) fd = some f := by
  simp [Flows.put]

/-- On the model primitive, a flags-set that returns 0 is followed by a
flags-get that returns 0 and writes the stored bitmask. -/
theorem fccntl_model_flags_roundtrip (w : Flows) (fd : Int) (m flags : Nat)
    (hset : (fccntl_model w fd .FLOWSFLAGS m).ret = 0) :
    (fccntl_model (fccntl_model w fd .FLOWSFLAGS m).world fd .FLOWGFLAGS flags).ret = 0 ∧
    (fccntl_model (fccntl_model w fd .FLOWSFLAGS m).world fd .FLOWGFLAGS flags).slot
      = m % 2 ^ 32 := by
  unfold fccntl_model at hset ⊢
  cases hw : w fd with
  | none => simp [hw] at hset
  | some f =>
    simp [Flows.put_same]
    norm_num

/-- Counterexample to C4 as stated: on the model primitive, setting the
bitmask 2147483648 on the open descriptor 3 succeeds, and the following
`flow_get_flags` returns -2147483648, which is not the bitmask. -/
theorem set_then_get_flags_high_bit :
    (flow_set_flags fccntl_model one_flow 3 2147483648).ret = 0 ∧
    (flow_get_flags 1 fccntl_model
      (flow_set_flags fccntl_model one_flow 3 2147483648).world 77 3).ret = -2147483648 ∧
    (flow_get_flags 1 fccntl_model
      (flow_set_flags fccntl_model one_flow 3 2147483648).world 77 3).ret
      ≠ ((2147483648 : Nat) : Int) := by
  decide

/-- C4, amended: over the model primitive, for every descriptor and every
32-bit bitmask `m`, when `flow_set_flags` succeeds the following
`flow_get_flags` returns `m` read as a signed 32-bit integer: `m` itself when
`m < 2^31`, `m - 2^32` when `2^31 ≤ m`, and in both cases a value equal to `m`
modulo `2^32`. -/
theorem set_flags_then_get_flags (EPERM : Int) (w : Flows) (fd : Int) (m flags : Nat)
    (hm : m < 2 ^ 32) (hset : (flow_set_flags fccntl_model w fd m).ret = 0) :
    (m < 2 ^ 31 →
      (flow_get_flags EPERM fccntl_model (flow_set_flags fccntl_model w fd m).world
        flags fd).ret = (m : Int)) ∧
    (2 ^ 31 ≤ m →
      (flow_get_flags EPERM fccntl_model (flow_set_flags fccntl_model w fd m).world
        flags fd).ret = (m : Int) - 2 ^ 32) ∧
    (flow_get_flags EPERM fccntl_model (flow_set_flags fccntl_model w fd m).world
      flags fd).ret % 2 ^ 32 = (m : Int) := by
  have hrt := fccntl_model_flags_roundtrip w fd m flags hset
  have hret := flow_get_flags_ret_of_success EPERM fccntl_model
    (flow_set_flags fccntl_model w fd m).world flags fd hrt.1
  have hslot : (fccntl_model (flow_set_flags fccntl_model w fd m).world fd
      .FLOWGFLAGS flags).slot = m := by
    rw [show (flow_set_flags fccntl_model w fd m) = fccntl_model w fd .FLOWSFLAGS m from rfl,
      hrt.2]
    exact Nat.mod_eq_of_lt hm
  rw [hret, hslot]
  have hc := int_of_uint32_cases m hm
  exact ⟨fun h => (hc.1 h).2, fun h => (hc.2.1 h).2, hc.2.2⟩

/-- Witness of C4, amended: on the open descriptor 3 the bitmask 6 comes back as
6 and the bitmask 4294967294 comes back as -2. -/
theorem set_flags_then_get_flags_witness :
    (flow_get_flags 1 fccntl_model (flow_set_flags fccntl_model one_flow 3 6).world
      77 3).ret = ((6 : Nat) : Int) ∧
    (flow_get_flags 1 fccntl_model (flow_set_flags fccntl_model one_flow 3 4294967294).world
      77 3).ret = ((4294967294 : Nat) : Int) - 2 ^ 32 :=
  ⟨(set_flags_then_get_flags 1 one_flow 3 6 77 (by decide) (by decide)).1 (by decide),
   (set_flags_then_get_flags 1 one_flow 3 4294967294 77 (by decide) (by decide)).2.1
     (by decide)⟩

/-- On the model primitive, a receive-timeout set with a duration that returns
0 is followed by a receive-timeout get that returns 0 and writes the duration. -/
theorem fccntl_model_rcv_roundtrip (w : Flows) (fd : Int) (V slot : timespec)
    (hset : (fccntl_model w fd .FLOWSRCVTIMEO (some V)).ret = 0) :
    (fccntl_model (fccntl_model w fd .FLOWSRCVTIMEO (some V)).world fd
      .FLOWGRCVTIMEO (some slot)).ret = 0 ∧
    (fccntl_model (fccntl_model w fd .FLOWSRCVTIMEO (some V)).world fd
      .FLOWGRCVTIMEO (some slot)).slot = some V := by
  unfold fccntl_model at hset ⊢
  cases hw : w fd with
  | none => simp [hw] at hset
  | some f => simp [Flows.put_same]

/-- On the model primitive, a send-timeout set with a duration that returns 0
is followed by a send-timeout get that returns 0 and writes the duration. -/
theorem fccntl_model_snd_roundtrip (w : Flows) (fd : Int) (V slot : timespec)
    (hset : (fccntl_model w fd .FLOWSSNDTIMEO (some V)).ret = 0) :
    (fccntl_model (fccntl_model w fd .FLOWSSNDTIMEO (some V)).world fd
      .FLOWGSNDTIMEO (some slot)).ret = 0 ∧
    (fccntl_model (fccntl_model w fd .FLOWSSNDTIMEO (some V)).world fd
      .FLOWGSNDTIMEO (some slot)).slot = some V := by
  unfold fccntl_model at hset ⊢
  cases hw : w fd with
  | none => simp [hw] at hset
  | some f => simp [Flows.put_same]

/-- C5: over the model primitive, for every descriptor, every duration `V` and
every initial slot content, when `flow_set_rcv_timeout` with `V` succeeds the
following `flow_get_rcv_timeout` returns 0 and leaves the slot equal to `V`;
the same for `flow_set_snd_timeout` and `flow_get_snd_timeout`. -/
theorem set_timeout_then_get_timeout (w : Flows) (fd : Int) (V slot : timespec) :
    ((flow_set_rcv_timeout fccntl_model w fd (some V)).ret = 0 →
      (flow_get_rcv_timeout fccntl_model
        (flow_set_rcv_timeout fccntl_model w fd (some V)).world fd (some slot)).ret = 0 ∧
      (flow_get_rcv_timeout fccntl_model
        (flow_set_rcv_timeout fccntl_model w fd (some V)).world fd (some slot)).slot
        = some V) ∧
    ((flow_set_snd_timeout fccntl_model w fd (some V)).ret = 0 →
      (flow_get_snd_timeout fccntl_model
        (flow_set_snd_timeout fccntl_model w fd (some V)).world fd (some slot)).ret = 0 ∧
      (flow_get_snd_timeout fccntl_model
        (flow_set_snd_timeout fccntl_model w fd (some V)).world fd (some slot)).slot
        = some V) :=
  ⟨fun h => fccntl_model_rcv_roundtrip w fd V slot h,
   fun h => fccntl_model_snd_roundtrip w fd V slot h⟩

/-- Witness of C5: on the open descriptor 3, after the receive timeout is set to
2.5 s the get returns 0 and fills the slot with 2.5 s; the same for the send
timeout. -/
theorem set_timeout_then_get_timeout_witness :
    ((flow_get_rcv_timeout fccntl_model
        (flow_set_rcv_timeout fccntl_model one_flow 3 (some two_and_a_half)).world 3
        (some { tv_sec := 0, tv_nsec := 0 })).ret = 0 ∧
      (flow_get_rcv_timeout fccntl_model
        (flow_set_rcv_timeout fccntl_model one_flow 3 (some two_and_a_half)).world 3
        (some { tv_sec := 0, tv_nsec := 0 })).slot = some two_and_a_half) ∧
    ((flow_get_snd_timeout fccntl_model
        (flow_set_snd_timeout fccntl_model one_flow 3 (some two_and_a_half)).world 3
        (some { tv_sec := 0, tv_nsec := 0 })).ret = 0 ∧
      (flow_get_snd_timeout fccntl_model
        (flow_set_snd_timeout fccntl_model one_flow 3 (some two_and_a_half)).world 3
        (some { tv_sec := 0, tv_nsec := 0 })).slot = some two_and_a_half) :=
  ⟨(set_timeout_then_get_timeout one_flow 3 two_and_a_half { tv_sec := 0, tv_nsec := 0 }).1
     (by decide),
   (set_timeout_then_get_timeout one_flow 3 two_and_a_half { tv_sec := 0, tv_nsec := 0 }).2
     (by decide)⟩

end FccntlWrap
